import Mathlib

/-!
Shallow embedding of the pharm-comm-ai conversation/feedback engine.

The JavaScript sources embedded here are:
* `docs/js/app.js` (class `NLPScorer`): the heuristic message scorer;
* `docs/js/feedback-generator.js` (class `FeedbackGenerator`);
* `docs/js/conversation-simulator.js` (class `ConversationSimulator`).

JavaScript numbers are modelled as rationals (`ℚ`); all constants appearing
in the code (0.5, 0.15, …) are exactly representable, every arithmetic
operation performed is addition/subtraction/min/max/division by powers of ten,
and threshold comparisons in the code stay far from the region where binary
floating point rounding of these operations could flip a branch.
`Date` timestamps are wall-clock I/O and are left out of the model; no field
of the model depends on them.  The uniform random pool index drawn by
`Math.random` is modelled as an explicit `ℕ` parameter reduced modulo the
pool size.
-/

namespace PharmComm

/-- JavaScript whitespace as used by `trim` and the `\s` regex class,
restricted to the ASCII code points that can occur in this code base. -/
def isWS (c : Char) : Bool :=
  c = ' ' || c = '\t' || c = '\n' || c = '\r' || c = '\x0b' || c = '\x0c'

/-- `Math.min` on two numbers. -/
def jsMin (a b : ℚ) : ℚ := if a ≤ b then a else b

/-- `Math.max` on two numbers. -/
def jsMax (a b : ℚ) : ℚ := if a ≤ b then b else a

/-- `Math.round`: round half toward positive infinity. -/
def jsRound (x : ℚ) : ℤ := ⌊x + 1/2⌋

/-- `Math.round(x * 100) / 100`: round to two decimal places. -/
def round2 (x : ℚ) : ℚ := (jsRound (x * 100) : ℚ) / 100

/-- The JavaScript expression `v || d` for a possibly-missing numeric field:
`undefined` (modelled as `none`) and `0` are falsy and give the default `d`. -/
def jsOr (v : Option ℚ) (d : ℚ) : ℚ :=
  match v with
  | none => d
  | some x => if x = 0 then d else x

/-- Whether `sub` is a prefix of `hay` (on character lists). -/
def startsWithList : List Char → List Char → Bool
  | _, [] => true
  | [], _ :: _ => false
  | c :: cs, d :: ds => c = d && startsWithList cs ds

/-- Whether `sub` occurs contiguously somewhere in `hay`. -/
def containsList : List Char → List Char → Bool
  | [], sub => sub.isEmpty
  | c :: cs, sub => startsWithList (c :: cs) sub || containsList cs sub

/-- `String.prototype.includes`: substring containment. -/
def containsStr (hay sub : String) : Bool :=
  containsList hay.toList sub.toList

/-- `String.prototype.trim`: strip leading and trailing whitespace. -/
def jsTrim (l : List Char) : List Char :=
  ((l.dropWhile isWS).reverse.dropWhile isWS).reverse

/-- Worker for `splitRuns`: `cur` is the current chunk (reversed), `inSep`
records whether we are inside a separator run. -/
def splitRunsGo (p : Char → Bool) : List Char → List Char → Bool → List (List Char)
  | [], cur, inSep => if inSep then [[]] else [cur.reverse]
  | c :: cs, cur, inSep =>
    if p c then
      if inSep then splitRunsGo p cs [] true
      else cur.reverse :: splitRunsGo p cs [] true
    else splitRunsGo p cs (c :: cur) false

/-- `String.prototype.split` on a regex matching maximal runs of characters
satisfying `p` (such as `/\s+/` or `/[.!?]+/`): the chunks between the runs,
including an empty chunk when the string starts or ends with a run. -/
def splitRuns (p : Char → Bool) (l : List Char) : List (List Char) :=
  splitRunsGo p l [] false

/-! ### NLPScorer (docs/js/app.js) -/

/-- `NLPScorer.empathyKeywords`. -/
def empathyKeywords : List String :=
  ["understand", "feel", "concern", "worry", "appreciate",
   "valid", "important", "hear", "listening", "respect",
   "i see", "makes sense", "thank you", "natural", "normal"]

/-- `NLPScorer.accuracyKeywords.vaccine_facts`. -/
def vaccineFactKeywords : List String :=
  ["clinical trial", "fda approved", "tested", "study", "research",
   "data", "evidence", "scientist", "peer-reviewed", "effective"]

/-- `NLPScorer.accuracyKeywords.safety_facts`. -/
def safetyFactKeywords : List String :=
  ["safe", "monitored", "side effects are", "rare", "temporary",
   "benefits outweigh", "millions", "approved"]

/-- `NLPScorer.accuracyKeywords.immune_system`. -/
def immuneSystemKeywords : List String :=
  ["immune response", "antibodies", "protection", "immunity",
   "immune system", "body's defense"]

/-- `Object.values(this.accuracyKeywords)`. -/
def accuracyKeywordCategories : List (List String) :=
  [vaccineFactKeywords, safetyFactKeywords, immuneSystemKeywords]

/-- `NLPScorer.misinformationFlags`. -/
def misinformationFlags : List String :=
  ["chip", "tracking", "dna change", "alter dna", "experimental",
   "not tested", "rushed", "conspiracy"]

/-- `NLPScorer.positiveWords`. -/
def positiveWords : List String :=
  ["good", "great", "understand", "help", "support", "care", "safe",
   "effective", "beneficial", "protect", "healthy", "appreciate",
   "thank", "happy", "confident", "trust", "reliable", "proven"]

/-- `NLPScorer.negativeWords`. -/
def negativeWords : List String :=
  ["bad", "dangerous", "harmful", "wrong", "stupid", "foolish",
   "refuse", "hate", "terrible", "awful", "ridiculous", "nonsense"]

/-- A keyword-counting loop: how many entries of `kws` occur in `ml`
(each keyword counted once, substring match). -/
def countMatches (kws : List String) (ml : String) : ℕ :=
  (kws.filter (fun kw => containsStr ml kw)).length

/-- `word.replace(/[^a-z]/g, '')`: strip everything but lowercase letters. -/
def cleanWord (w : List Char) : List Char :=
  w.filter (fun c => decide ('a' ≤ c ∧ c ≤ 'z'))

/-- The shape of `NLPScorer._getSentiment`'s result. -/
structure Sentiment where
  compound : ℚ
  positive : ℚ
  negative : ℚ
  neutral : ℚ
  deriving DecidableEq

/-- `NLPScorer._getSentiment`: tokenize the lowercased message on whitespace
runs (`split(/\s+/)`, which keeps empty boundary chunks), strip each token to
its letters and count hits against the fixed sentiment word lists. -/
def getSentiment (message : String) : Sentiment :=
  let words := splitRuns isWS message.toLower.toList
  let totalWords : ℕ := words.length
  let positiveCount : ℕ :=
    (words.filter (fun w => (positiveWords.map String.toList).contains (cleanWord w))).length
  let negativeCount : ℕ :=
    (words.filter (fun w => (negativeWords.map String.toList).contains (cleanWord w))).length
  let positive : ℚ := if 0 < totalWords then (positiveCount : ℚ) / (totalWords : ℚ) else 0
  let negative : ℚ := if 0 < totalWords then (negativeCount : ℚ) / (totalWords : ℚ) else 0
  let neutral : ℚ := 1 - positive - negative
  let compound : ℚ := ((positiveCount : ℚ) - (negativeCount : ℚ)) / jsMax 1 (totalWords : ℚ)
  { compound := round2 compound
    positive := round2 positive
    negative := round2 negative
    neutral := round2 (jsMax 0 neutral) }

/-- The acknowledgment phrases checked by `_scoreEmpathy`. -/
def acknowledgmentPhrases : List String :=
  ["your concern", "your worry", "you feel", "you're"]

/-- The dismissive phrases checked by `_scoreEmpathy`. -/
def dismissivePhrases : List String :=
  ["just", "simply", "you should", "you must", "you need to"]

/-- `NLPScorer._scoreEmpathy`: base 0.5, keyword boost capped at 0.3,
acknowledgment +0.15, sentiment ±, dismissive −0.1, non-why question +0.05,
clamped to [0,1]. -/
def scoreEmpathy (message : String) : ℚ :=
  let messageLower := message.toLower
  let empathyCount := countMatches empathyKeywords messageLower
  let score : ℚ := 0.5 + jsMin 0.3 ((empathyCount : ℚ) * 0.1)
  let score :=
    if acknowledgmentPhrases.any (fun p => containsStr messageLower p) then score + 0.15 else score
  let sentiment := getSentiment message
  let score :=
    if sentiment.compound > 0.1 then score + 0.1
    else if sentiment.compound < -0.1 then score - 0.15
    else score
  let score :=
    if dismissivePhrases.any (fun p => containsStr messageLower p) then score - 0.1 else score
  let score :=
    if containsStr message "?" && !containsStr messageLower "why" then score + 0.05 else score
  jsMax 0 (jsMin 1 score)

/-- The tail of the regex `\d+%|\d+ percent` after its first digit: more
digits, then a percent marker. -/
def percentTail : List Char → Bool
  | '%' :: _ => true
  | ' ' :: 'p' :: 'e' :: 'r' :: 'c' :: 'e' :: 'n' :: 't' :: _ => true
  | c :: cs => if c.isDigit then percentTail cs else false
  | [] => false

/-- Whether `/\d+%|\d+ percent/` matches somewhere in the character list. -/
def hasDataPattern : List Char → Bool
  | [] => false
  | c :: cs => (c.isDigit && percentTail cs) || hasDataPattern cs

/-- The hedging words checked by `_scoreAccuracy`. -/
def hedgingWords : List String :=
  ["generally", "typically", "usually", "most", "many"]

/-- `NLPScorer._scoreAccuracy`: base 0.5, fact-keyword boost capped at 0.4,
flat −0.3 when any misinformation flag occurs, +0.15 for data mentions,
+0.05 for hedging, clamped to [0,1]. -/
def scoreAccuracy (message : String) : ℚ :=
  let messageLower := message.toLower
  let accurateKeywords : ℕ :=
    (accuracyKeywordCategories.map (fun cat => countMatches cat messageLower)).sum
  let score : ℚ := 0.5 + jsMin 0.4 ((accurateKeywords : ℚ) * 0.08)
  let misinformationCount := countMatches misinformationFlags messageLower
  let score := if 0 < misinformationCount then score - 0.3 else score
  let score :=
    if hasDataPattern messageLower.toList || containsStr messageLower "study"
        || containsStr messageLower "trial" then
      score + 0.15
    else score
  let score :=
    if hedgingWords.any (fun w => containsStr messageLower w) then score + 0.05 else score
  jsMax 0 (jsMin 1 score)

/-- `message.split(/\s+/).filter(w => w).length`: number of nonempty chunks. -/
def wordCount (message : String) : ℕ :=
  ((splitRuns isWS message.toList).filter (fun w => !w.isEmpty)).length

/-- The sentence terminators of the regex classes `[.!?]` and `[.!?]+`. -/
def isSentencePunct (c : Char) : Bool := c = '.' || c = '!' || c = '?'

/-- `message.split(/[.!?]+/).filter(s => s.trim()).length`: chunks between
terminator runs that contain a non-whitespace character. -/
def sentenceCount (message : String) : ℕ :=
  ((splitRuns isSentencePunct message.toList).filter
    (fun s => s.any (fun c => !isWS c))).length

/-- `NLPScorer.jargonTerms` (local to `_scoreClarity`). -/
def jargonTerms : List String :=
  ["immunoglobulin", "mrna", "adjuvant", "epitope",
   "pathogen", "antigen", "cytokine"]

/-- The clarity phrases checked by `_scoreClarity`. -/
def clarityPhrases : List String :=
  ["in other words", "for example", "this means",
   "let me explain", "simply put"]

/-- `NLPScorer._scoreClarity`: base 0.5, word-count band adjustments,
sentence-count band adjustments, terminal punctuation +0.1, jargon ±,
clarity phrase +0.1, clamped to [0,1]. -/
def scoreClarity (message : String) : ℚ :=
  let score : ℚ := 0.5
  let wc := wordCount message
  let score :=
    if 15 ≤ wc ∧ wc ≤ 60 then score + 0.2
    else if wc < 10 then score - 0.2
    else if 100 < wc then score - 0.15
    else score
  let sc := sentenceCount message
  let score :=
    if 1 ≤ sc ∧ sc ≤ 4 then score + 0.15
    else if 6 < sc then score - 0.1
    else score
  let score := if message.toList.any (fun c => isSentencePunct c) then score + 0.1 else score
  let jargonCount := countMatches jargonTerms message.toLower
  let score :=
    if 2 < jargonCount then score - 0.15
    else if jargonCount = 1 then score + 0.05
    else score
  let score :=
    if clarityPhrases.any (fun p => containsStr message.toLower p) then score + 0.1 else score
  jsMax 0 (jsMin 1 score)

/-- The `details` object of a score result. -/
structure Details where
  word_count : ℕ
  has_question : Bool
  sentiment : Sentiment
  deriving DecidableEq

/-- The result shape of `NLPScorer.scoreMessage`; `details := none` models
the empty `{}` details object of the degenerate branch. -/
structure ScoreResult where
  empathy : ℚ
  accuracy : ℚ
  clarity : ℚ
  details : Option Details
  deriving DecidableEq

/-- `NLPScorer.scoreMessage`: all-zero result with empty details for empty or
whitespace-only input (`!message || !message.trim()`), otherwise the three
sub-scores rounded to two decimals plus their details. -/
def scoreMessage (message : String) : ScoreResult :=
  if message.toList.isEmpty || (jsTrim message.toList).isEmpty then
    { empathy := 0, accuracy := 0, clarity := 0, details := none }
  else
    { empathy := round2 (scoreEmpathy message)
      accuracy := round2 (scoreAccuracy message)
      clarity := round2 (scoreClarity message)
      details := some { word_count := wordCount message
                        has_question := containsStr message "?"
                        sentiment := getSentiment message } }

/-! ### FeedbackGenerator (docs/js/feedback-generator.js) -/

/-- A scores object as the engine and the feedback generator receive it:
each numeric field may be absent (JavaScript `undefined`, modelled `none`). -/
structure ScoresObj where
  empathy : Option ℚ
  accuracy : Option ℚ
  clarity : Option ℚ
  deriving DecidableEq

/-- The scores object carrying a scorer result (all fields present). -/
def ScoreResult.toObj (r : ScoreResult) : ScoresObj :=
  { empathy := some r.empathy, accuracy := some r.accuracy, clarity := some r.clarity }

/-- One per-dimension feedback entry `{score, level, message}`. -/
structure DimFeedback where
  score : ℚ
  level : String
  message : String
  deriving DecidableEq

/-- One suggestion entry `{category, tip, example}` (the `example` field is
named `exampleText` because `example` is a Lean keyword). -/
structure Suggestion where
  category : String
  tip : String
  exampleText : String
  deriving DecidableEq

/-- The result shape of `FeedbackGenerator.generateFeedback`. -/
structure Feedback where
  overall : String
  empathy : DimFeedback
  accuracy : DimFeedback
  clarity : DimFeedback
  suggestions : List Suggestion
  strengths : List String
  deriving DecidableEq

/-- `FeedbackGenerator._getLevel`. -/
def getLevel (score : ℚ) : String :=
  if score ≥ 0.8 then "Excellent"
  else if score ≥ 0.65 then "Good"
  else if score ≥ 0.5 then "Fair"
  else "Needs Improvement"

/-- `FeedbackGenerator._getOverallFeedback`. -/
def getOverallFeedback (empathy accuracy clarity : ℚ) : String :=
  let avgScore := (empathy + accuracy + clarity) / 3
  if avgScore ≥ 0.8 then
    "Excellent response! You demonstrated strong empathy, provided accurate information, and communicated clearly."
  else if avgScore ≥ 0.65 then
    "Good response. You're on the right track, but there's room for improvement in some areas."
  else if avgScore ≥ 0.5 then
    "Fair response. Consider focusing on building rapport and providing clearer information."
  else
    "This response needs improvement. Focus on being more empathetic and providing accurate, clear information."

/-- `FeedbackGenerator._getEmpathyFeedback`. -/
def getEmpathyFeedback (score : ℚ) (message : String) : DimFeedback :=
  { score := score
    level := getLevel score
    message :=
      if score ≥ 0.75 then
        "You demonstrated excellent empathy by acknowledging the patient's concerns and showing understanding."
      else if score ≥ 0.6 then
        "You showed good empathy. To improve, try using more phrases that validate the patient's feelings."
      else if score ≥ 0.4 then
        "Your empathy could be stronger. Remember to acknowledge the patient's concerns before providing information."
      else
        "Try to be more empathetic. Start by validating the patient's feelings with phrases like 'I understand your concern' or 'That's a valid worry.'" }

/-- `FeedbackGenerator._getAccuracyFeedback`. -/
def getAccuracyFeedback (score : ℚ) (message : String) : DimFeedback :=
  { score := score
    level := getLevel score
    message :=
      if score ≥ 0.75 then
        "You provided accurate, evidence-based information. Well done!"
      else if score ≥ 0.6 then
        "Good accuracy. Consider adding specific data or studies to strengthen your response."
      else if score ≥ 0.4 then
        "Include more factual information. Reference clinical trials, FDA approval, or specific statistics."
      else
        "Your response needs more accurate information. Avoid speculation and focus on evidence-based facts about vaccine safety and efficacy." }

/-- `FeedbackGenerator._getClarityFeedback`: the two lowest message tiers
branch on the message's word count, at 15 words for the `[0.4, 0.6)` tier
and at 10 words for the lowest tier. -/
def getClarityFeedback (score : ℚ) (message : String) : DimFeedback :=
  let wc := wordCount message
  { score := score
    level := getLevel score
    message :=
      if score ≥ 0.75 then
        "Your message was clear and well-structured. Great job!"
      else if score ≥ 0.6 then
        "Generally clear. Try to organize your thoughts into 2-3 concise sentences."
      else if score ≥ 0.4 then
        (if wc < 15 then
          "Your response is too brief. Provide more detail to address the patient's concerns."
        else
          "Simplify your language. Avoid excessive jargon and keep sentences concise.")
      else
        (if wc < 10 then
          "Your response is too short. Elaborate more to address the patient's concerns thoroughly."
        else
          "Your response is unclear or too complex. Use simpler language and break down information into digestible parts.") }

/-- The empathy suggestion pushed by `_getSuggestions`. -/
def empathySuggestion : Suggestion :=
  { category := "Empathy"
    tip := "Start your response by acknowledging the patient's feelings: 'I understand why you might feel that way...'"
    exampleText := "I can see why you're concerned about side effects. Many people share that worry, and it's completely valid." }

/-- The accuracy suggestion pushed by `_getSuggestions`. -/
def accuracySuggestion : Suggestion :=
  { category := "Accuracy"
    tip := "Include specific facts and data to support your points."
    exampleText := "Clinical trials with over 30,000 participants showed that the vaccine is over 90% effective and has a strong safety profile." }

/-- The clarity suggestion pushed by `_getSuggestions` for short messages. -/
def clarityDetailSuggestion : Suggestion :=
  { category := "Clarity"
    tip := "Provide more detailed information while staying focused."
    exampleText := "Expand your response to include specific examples and explanations that address the patient's concern." }

/-- The clarity suggestion pushed by `_getSuggestions` for longer messages. -/
def clarityConciseSuggestion : Suggestion :=
  { category := "Clarity"
    tip := "Keep your response concise and focused on 1-2 main points."
    exampleText := "Break complex information into shorter, more digestible sentences." }

/-- The engagement suggestion pushed by `_getSuggestions`. -/
def engagementSuggestion : Suggestion :=
  { category := "Engagement"
    tip := "Ask follow-up questions to better understand the patient's concerns."
    exampleText := "What specifically worries you most about the vaccine?" }

/-- `FeedbackGenerator._getSuggestions`: the four checks push in program
order, then `slice(0, 3)` keeps the first three. -/
def getSuggestions (scores : ScoresObj) (message : String) : List Suggestion :=
  let empathy := jsOr scores.empathy 0
  let accuracy := jsOr scores.accuracy 0
  let clarity := jsOr scores.clarity 0
  let suggestions : List Suggestion := []
  let suggestions := if empathy < 0.6 then suggestions ++ [empathySuggestion] else suggestions
  let suggestions := if accuracy < 0.6 then suggestions ++ [accuracySuggestion] else suggestions
  let suggestions :=
    if clarity < 0.6 then
      suggestions ++
        [if wordCount message < 15 then clarityDetailSuggestion else clarityConciseSuggestion]
    else suggestions
  let suggestions :=
    if !containsStr message "?" then suggestions ++ [engagementSuggestion] else suggestions
  suggestions.take 3

/-- `FeedbackGenerator._getStrengths`: checklist with a fallback string when
no criterion fires. -/
def getStrengths (scores : ScoresObj) (message : String) : List String :=
  let empathy := jsOr scores.empathy 0
  let accuracy := jsOr scores.accuracy 0
  let clarity := jsOr scores.clarity 0
  let strengths : List String := []
  let strengths :=
    if empathy ≥ 0.7 then strengths ++ ["Strong empathetic communication"] else strengths
  let strengths :=
    if accuracy ≥ 0.7 then strengths ++ ["Accurate, evidence-based information"] else strengths
  let strengths :=
    if clarity ≥ 0.7 then strengths ++ ["Clear and concise communication"] else strengths
  let strengths :=
    if containsStr message "?" then strengths ++ ["Good use of questions for engagement"] else strengths
  let messageLower := message.toLower
  let strengths :=
    if ["understand", "i hear", "appreciate"].any (fun p => containsStr messageLower p) then
      strengths ++ ["Acknowledges patient perspective"]
    else strengths
  if 0 < strengths.length then strengths else ["Keep practicing to develop your strengths"]

/-- `FeedbackGenerator.generateFeedback`: coalesce each possibly-missing
score with `|| 0`, then assemble the overall, per-dimension, suggestion and
strength parts. -/
def generateFeedback (message : String) (scores : ScoresObj) : Feedback :=
  let empathyScore := jsOr scores.empathy 0
  let accuracyScore := jsOr scores.accuracy 0
  let clarityScore := jsOr scores.clarity 0
  { overall := getOverallFeedback empathyScore accuracyScore clarityScore
    empathy := getEmpathyFeedback empathyScore message
    accuracy := getAccuracyFeedback accuracyScore message
    clarity := getClarityFeedback clarityScore message
    suggestions := getSuggestions scores message
    strengths := getStrengths scores message }

/-! ### ConversationSimulator (docs/js/conversation-simulator.js) -/

/-- One persona record of `_initializePersonas`. -/
structure Persona where
  name : String
  concerns : List String
  openness : ℚ
  initialMessage : String
  personality : String
  deriving DecidableEq

/-- The catalog entry under the key `default`. -/
def defaultPersona : Persona :=
  { name := "Alex"
    concerns := ["side_effects", "safety"]
    openness := 0.5
    initialMessage := "I'm not sure about getting this vaccine. I've heard a lot of concerning things about side effects."
    personality := "cautious" }

/-- `ConversationSimulator._initializePersonas`: the five-persona catalog. -/
def personas : List (String × Persona) :=
  [("default", defaultPersona),
   ("safety_concerned",
    { name := "Sarah"
      concerns := ["long_term_effects", "testing"]
      openness := 0.3
      initialMessage := "I don't think the vaccine has been tested enough. How can we know it's safe in the long run?"
      personality := "skeptical" }),
   ("natural_immunity",
    { name := "Michael"
      concerns := ["natural_immunity", "necessity"]
      openness := 0.4
      initialMessage := "I'd rather rely on my natural immunity. Why do I need a vaccine if my immune system works fine?"
      personality := "confident" }),
   ("side_effects",
    { name := "Jennifer"
      concerns := ["side_effects", "allergies"]
      openness := 0.6
      initialMessage := "I'm worried about side effects. I have some allergies, and I've heard people have had bad reactions."
      personality := "anxious" }),
   ("misinformation",
    { name := "Robert"
      concerns := ["conspiracy", "distrust"]
      openness := 0.2
      initialMessage := "I've read online that vaccines contain tracking chips and harmful chemicals. I don't trust them."
      personality := "distrustful" })]

/-- `this.personas[personaKey] || this.personas['default']`: unknown keys
silently fall back to the default persona. -/
def lookupPersona (personaKey : String) : Persona :=
  (personas.lookup personaKey).getD defaultPersona

/-- A turn's speaker. -/
inductive Speaker where
  | patient
  | student
  deriving DecidableEq

/-- One conversation turn (the wall-clock timestamp field is outside the
model; nothing in the code reads it back). -/
structure Turn where
  speaker : Speaker
  message : String
  deriving DecidableEq

/-- The per-session state held in `this.sessions[sessionId]` (minus the
wall-clock `startTime`, which only feeds the summary's duration). -/
structure Session where
  persona : Persona
  conversationHistory : List Turn
  scoresHistory : List ScoresObj
  opennessLevel : ℚ
  turnCount : ℕ
  deriving DecidableEq

/-- `ConversationSimulator.startSession`: build the session for the persona
under `personaKey` and push the persona's initial message as the first
patient turn.  The opaque session-id generation and the store insertion are
identity plumbing around this state. -/
def startSession (personaKey : String) : Session :=
  let persona := lookupPersona personaKey
  { persona := persona
    conversationHistory := [{ speaker := Speaker.patient, message := persona.initialMessage }]
    scoresHistory := []
    opennessLevel := persona.openness
    turnCount := 0 }

/-- The high-openness response pool. -/
def highOpennessResponses : List String :=
  ["You know, that actually makes sense. I hadn't thought about it that way before.",
   "I appreciate you taking the time to explain this. I'm starting to feel better about it.",
   "Thank you for addressing my concerns. I think I understand better now.",
   "That's reassuring to hear. Maybe I was worrying too much."]

/-- The two lines pushed onto the high-openness pool when `turnCount > 3`. -/
def highOpennessExtra : List String :=
  ["Okay, I think you've convinced me. What are the next steps to get vaccinated?",
   "I feel much better about this now. Thank you for being so patient with me."]

/-- The medium-openness pool for messages mentioning side effects. -/
def mediumSideEffectResponses : List String :=
  ["I see. But what about the people who have had severe reactions?",
   "That helps, but I'm still worried about potential side effects.",
   "How common are these side effects you mentioned?"]

/-- The medium-openness pool for messages mentioning safety or testing. -/
def mediumSafetyResponses : List String :=
  ["I understand they did testing, but was it really enough time?",
   "That's somewhat reassuring, but I still have some doubts.",
   "Can you tell me more about the testing process?"]

/-- The generic medium-openness pool. -/
def mediumGenericResponses : List String :=
  ["I'm listening, but I'm not entirely convinced yet.",
   "That's interesting. Can you explain more?",
   "I appreciate the information, but I still have questions."]

/-- The low-openness pool used when the empathy score is low. -/
def lowConfrontationalResponses : List String :=
  ["You're not really listening to my concerns.",
   "I don't think you understand how I feel about this.",
   "This doesn't feel like you care about my worries."]

/-- The low-openness pool used otherwise. -/
def lowSkepticalResponses : List String :=
  ["I've heard that before, but I'm still not sure I believe it.",
   "But what about all the stories I've heard?",
   "I don't know... I'm still very skeptical.",
   "That's what they say, but how can I be sure?"]

/-- The pool selection of `_generateContextualResponse`: high tier above
openness 0.7 (extended after three turns), medium tier above 0.4 with
keyword branches, low tier below with the empathy branch. -/
def selectResponses (session : Session) (studentMessage : String) (scores : ScoresObj) : List String :=
  let openness := session.opennessLevel
  let turnCount := session.turnCount
  let messageLower := studentMessage.toLower
  if openness > 0.7 then
    if turnCount > 3 then highOpennessResponses ++ highOpennessExtra
    else highOpennessResponses
  else if openness > 0.4 then
    if containsStr messageLower "side effect" || containsStr messageLower "reaction" then
      mediumSideEffectResponses
    else if containsStr messageLower "safe" || containsStr messageLower "tested" then
      mediumSafetyResponses
    else
      mediumGenericResponses
  else
    if jsOr scores.empathy 0.5 < 0.4 then lowConfrontationalResponses
    else lowSkepticalResponses

/-- `_generateContextualResponse`: a uniformly random element of the selected
pool; the random draw `Math.floor(Math.random() * responses.length)` is the
explicit parameter `ix` reduced modulo the pool size. -/
def generateContextualResponse (session : Session) (studentMessage : String)
    (scores : ScoresObj) (ix : ℕ) : String :=
  let responses := selectResponses session studentMessage scores
  responses.getD (ix % responses.length) ""

/-- `ConversationSimulator.getResponse` acting on the session state: increment
the turn counter, append the student turn, record the scores, update openness
from the falsy-coalesced empathy and accuracy scores, and append the selected
patient response. -/
def getResponse (session : Session) (studentMessage : String) (scores : ScoresObj) (ix : ℕ) : Session :=
  let session := { session with turnCount := session.turnCount + 1 }
  let session :=
    { session with conversationHistory :=
        session.conversationHistory ++ [(⟨Speaker.student, studentMessage⟩ : Turn)] }
  let session := { session with scoresHistory := session.scoresHistory ++ [scores] }
  let empathyScore := jsOr scores.empathy 0.5
  let accuracyScore := jsOr scores.accuracy 0.5
  let session :=
    if empathyScore > 0.7 ∧ accuracyScore > 0.6 then
      { session with opennessLevel := jsMin 1.0 (session.opennessLevel + 0.15) }
    else if empathyScore < 0.4 then
      { session with opennessLevel := jsMax 0.0 (session.opennessLevel - 0.1) }
    else session
  let response := generateContextualResponse session studentMessage scores ix
  { session with conversationHistory :=
      session.conversationHistory ++ [(⟨Speaker.patient, response⟩ : Turn)] }

/-- One student turn's inputs: the message, its scores object and the random
index drawn while choosing the patient reply. -/
structure TurnInput where
  message : String
  scores : ScoresObj
  ix : ℕ

/-- A whole session run: `startSession` followed by one completed
`getResponse` call per input, with no intervening `endSession`. -/
def runSession (personaKey : String) (inputs : List TurnInput) : Session :=
  inputs.foldl (fun s i => getResponse s i.message i.scores i.ix) (startSession personaKey)

/-! ### Specification-side definitions

These two definitions transcribe the specification's words (not the code) and
exist only to be compared against the code's behaviour. -/

/-- The openness update exactly as the specification states it:
`empathy>0.7 AND accuracy>0.6` gives `min(1, openness+0.15)`; else
`empathy<0.4` gives `max(0, openness-0.1)`; else openness is unchanged. -/
def opennessUpdateSpec (openness empathy accuracy : ℚ) : ℚ :=
  if empathy > 0.7 ∧ accuracy > 0.6 then jsMin 1 (openness + 0.15)
  else if empathy < 0.4 then jsMax 0 (openness - 0.1)
  else openness

/-- The suggestion checklist as the specification states it: four checks in a
fixed order, each contributing its suggestion when it fires (the clarity text
branching on word count below 15). -/
def suggestionChecklistSpec (scores : ScoresObj) (message : String) : List Suggestion :=
  (if jsOr scores.empathy 0 < 0.6 then [empathySuggestion] else []) ++
  (if jsOr scores.accuracy 0 < 0.6 then [accuracySuggestion] else []) ++
  (if jsOr scores.clarity 0 < 0.6 then
    [if wordCount message < 15 then clarityDetailSuggestion else clarityConciseSuggestion]
  else []) ++
  (if !containsStr message "?" then [engagementSuggestion] else [])

/-! ### Session shape helpers -/

/-- The speaker sequence after `n` completed turns: one patient message, then
`n` strictly alternating student/patient pairs. -/
def speakerPattern (n : ℕ) : List Speaker :=
  Speaker.patient :: (List.replicate n [Speaker.student, Speaker.patient]).flatten

/-- The session-shape invariant: score history in step with the turn counter,
history of odd length `2·turnCount + 1`, speakers in the alternating pattern,
and the persona's initial message still at the head. -/
def sessionShapeInv (s : Session) : Prop :=
  s.scoresHistory.length = s.turnCount ∧
  s.conversationHistory.length = 2 * s.turnCount + 1 ∧
  s.conversationHistory.map Turn.speaker = speakerPattern s.turnCount ∧
  s.conversationHistory.head? = some ⟨Speaker.patient, s.persona.initialMessage⟩

/-! ### Helper lemmas -/

theorem clamp01_nonneg (x : ℚ) : 0 ≤ jsMax 0 (jsMin 1 x) := by
  unfold jsMax jsMin
  split_ifs <;> linarith

theorem clamp01_le_one (x : ℚ) : jsMax 0 (jsMin 1 x) ≤ 1 := by
  unfold jsMax jsMin
  split_ifs <;> linarith

theorem le_clamp01 {b x : ℚ} (hb : b ≤ 1) (hbx : b ≤ x) : b ≤ jsMax 0 (jsMin 1 x) := by
  unfold jsMax jsMin
  split_ifs <;> linarith

theorem le_round2 {k : ℤ} {x : ℚ} (h : (k : ℚ) / 100 ≤ x) : (k : ℚ) / 100 ≤ round2 x := by
  unfold round2 jsRound
  rw [div_le_div_iff_of_pos_right (by norm_num : (0 : ℚ) < 100)]
  rw [Int.cast_le, Int.le_floor]
  linarith [(div_le_iff₀ (by norm_num : (0 : ℚ) < 100)).mp h]

theorem round2_le {k : ℤ} {x : ℚ} (h : x ≤ (k : ℚ) / 100) : round2 x ≤ (k : ℚ) / 100 := by
  unfold round2 jsRound
  rw [div_le_div_iff_of_pos_right (by norm_num : (0 : ℚ) < 100), Int.cast_le]
  have hx : x * 100 ≤ (k : ℚ) := by
    have h100 : ((k : ℚ) / 100) * 100 = (k : ℚ) := by field_simp
    nlinarith
  have hlt : (⌊x * 100 + 1 / 2⌋ : ℤ) < k + 1 := by
    rw [Int.floor_lt]
    push_cast
    linarith
  omega

theorem round2_nonneg {x : ℚ} (h : 0 ≤ x) : 0 ≤ round2 x := by
  have := le_round2 (k := 0) (x := x) (by simpa using h)
  simpa using this

theorem round2_le_one {x : ℚ} (h : x ≤ 1) : round2 x ≤ 1 := by
  have := round2_le (k := 100) (x := x) (by norm_num; linarith)
  rw [show ((100 : ℤ) : ℚ) / 100 = 1 by norm_num] at this
  exact this

theorem mem_of_mem_dropWhileWS {l : List Char} {x : Char} (hx : x ∈ l.dropWhile isWS) :
    x ∈ l := by
  induction l with
  | nil => simp at hx
  | cons c cs ih =>
    rw [List.dropWhile_cons] at hx
    by_cases h : isWS c
    · simp only [h, if_true] at hx
      exact List.mem_cons_of_mem _ (ih hx)
    · simp only [h, if_false] at hx
      exact hx

theorem jsTrim_eq_nil_iff (l : List Char) : jsTrim l = [] ↔ l.all isWS := by
  unfold jsTrim
  rw [List.reverse_eq_nil_iff, List.dropWhile_eq_nil_iff, List.all_eq_true]
  constructor
  · intro h x hx
    rcases List.mem_append.mp
        ((List.takeWhile_append_dropWhile (p := isWS) (l := l)) ▸ hx) with h1 | h1
    · exact List.mem_takeWhile_imp h1
    · exact h x (List.mem_reverse.mpr h1)
  · intro h x hx
    exact h x (mem_of_mem_dropWhileWS (List.mem_reverse.mp hx))

theorem getResponse_persona (s : Session) (m : String) (sc : ScoresObj) (ix : ℕ) :
    (getResponse s m sc ix).persona = s.persona := by
  simp only [getResponse]
  split_ifs <;> rfl

theorem getResponse_turnCount (s : Session) (m : String) (sc : ScoresObj) (ix : ℕ) :
    (getResponse s m sc ix).turnCount = s.turnCount + 1 := by
  simp only [getResponse]
  split_ifs <;> rfl

theorem getResponse_scoresHistory (s : Session) (m : String) (sc : ScoresObj) (ix : ℕ) :
    (getResponse s m sc ix).scoresHistory = s.scoresHistory ++ [sc] := by
  simp only [getResponse]
  split_ifs <;> rfl

theorem getResponse_historyLength (s : Session) (m : String) (sc : ScoresObj) (ix : ℕ) :
    (getResponse s m sc ix).conversationHistory.length
      = s.conversationHistory.length + 2 := by
  simp only [getResponse]
  split_ifs <;> simp

theorem getResponse_historySpeakers (s : Session) (m : String) (sc : ScoresObj) (ix : ℕ) :
    (getResponse s m sc ix).conversationHistory.map Turn.speaker
      = s.conversationHistory.map Turn.speaker ++ [Speaker.student, Speaker.patient] := by
  simp only [getResponse]
  split_ifs <;> simp

theorem getResponse_historyHead (s : Session) (m : String) (sc : ScoresObj) (ix : ℕ)
    (h : s.conversationHistory ≠ []) :
    (getResponse s m sc ix).conversationHistory.head? = s.conversationHistory.head? := by
  obtain ⟨a, t, hc⟩ := List.exists_cons_of_ne_nil h
  simp only [getResponse]
  split_ifs <;> simp [hc]

theorem getResponse_opennessLevel (s : Session) (m : String) (sc : ScoresObj) (ix : ℕ) :
    (getResponse s m sc ix).opennessLevel
      = if jsOr sc.empathy 0.5 > 0.7 ∧ jsOr sc.accuracy 0.5 > 0.6 then
          jsMin 1.0 (s.opennessLevel + 0.15)
        else if jsOr sc.empathy 0.5 < 0.4 then
          jsMax 0.0 (s.opennessLevel - 0.1)
        else s.opennessLevel := by
  simp only [getResponse]
  split_ifs <;> rfl

theorem speakerPattern_succ (n : ℕ) :
    speakerPattern (n + 1) = speakerPattern n ++ [Speaker.student, Speaker.patient] := by
  simp [speakerPattern, List.replicate_succ']

theorem getResponse_shapeInv {s : Session} (h : sessionShapeInv s)
    (m : String) (sc : ScoresObj) (ix : ℕ) :
    sessionShapeInv (getResponse s m sc ix) := by
  obtain ⟨h1, h2, h3, h4⟩ := h
  have hne : s.conversationHistory ≠ [] := by
    intro hnil
    rw [hnil] at h4
    simp at h4
  refine ⟨?_, ?_, ?_, ?_⟩
  · rw [getResponse_scoresHistory, getResponse_turnCount]
    simp [h1]
  · rw [getResponse_historyLength, getResponse_turnCount, h2]
    ring
  · rw [getResponse_historySpeakers, getResponse_turnCount, h3, speakerPattern_succ]
  · rw [getResponse_historyHead s m sc ix hne, getResponse_persona]
    exact h4

theorem foldl_getResponse_shapeInv (inputs : List TurnInput) (s : Session)
    (h : sessionShapeInv s) :
    sessionShapeInv (inputs.foldl (fun s i => getResponse s i.message i.scores i.ix) s) := by
  induction inputs generalizing s with
  | nil => exact h
  | cons i rest ih =>
    exact ih _ (getResponse_shapeInv h i.message i.scores i.ix)

theorem foldl_getResponse_turnCount (inputs : List TurnInput) (s : Session) :
    (inputs.foldl (fun s i => getResponse s i.message i.scores i.ix) s).turnCount
      = s.turnCount + inputs.length := by
  induction inputs generalizing s with
  | nil => simp
  | cons i rest ih =>
    rw [List.foldl_cons, ih, getResponse_turnCount, List.length_cons]
    ring

theorem foldl_getResponse_persona (inputs : List TurnInput) (s : Session) :
    (inputs.foldl (fun s i => getResponse s i.message i.scores i.ix) s).persona
      = s.persona := by
  induction inputs generalizing s with
  | nil => rfl
  | cons i rest ih =>
    rw [List.foldl_cons, ih, getResponse_persona]

theorem startSession_shapeInv (personaKey : String) :
    sessionShapeInv (startSession personaKey) := by
  refine ⟨rfl, rfl, rfl, rfl⟩

theorem lookupPersona_openness_bounds (key : String) :
    0 ≤ (lookupPersona key).openness ∧ (lookupPersona key).openness ≤ 1 := by
  unfold lookupPersona personas
  simp only [List.lookup]
  repeat' split
  all_goals simp_all [defaultPersona, Option.getD]
  all_goals norm_num

theorem scoreEmpathy_mem (message : String) :
    0 ≤ scoreEmpathy message ∧ scoreEmpathy message ≤ 1 := by
  simp only [scoreEmpathy]
  exact ⟨clamp01_nonneg _, clamp01_le_one _⟩

theorem scoreAccuracy_mem (message : String) :
    0 ≤ scoreAccuracy message ∧ scoreAccuracy message ≤ 1 := by
  simp only [scoreAccuracy]
  exact ⟨clamp01_nonneg _, clamp01_le_one _⟩

theorem scoreClarity_mem (message : String) :
    0 ≤ scoreClarity message ∧ scoreClarity message ≤ 1 := by
  simp only [scoreClarity]
  exact ⟨clamp01_nonneg _, clamp01_le_one _⟩

theorem scoreEmpathy_lower (message : String) : 1 / 4 ≤ scoreEmpathy message := by
  simp only [scoreEmpathy]
  have hmin : 0 ≤ jsMin 0.3 ((countMatches empathyKeywords message.toLower : ℚ) * 0.1) := by
    unfold jsMin
    split_ifs <;> positivity
  apply le_clamp01 (by norm_num)
  split_ifs <;> linarith

theorem scoreAccuracy_lower (message : String) : 1 / 5 ≤ scoreAccuracy message := by
  simp only [scoreAccuracy]
  have hmin : 0 ≤ jsMin 0.4
      (((accuracyKeywordCategories.map
          (fun cat => countMatches cat message.toLower)).sum : ℚ) * 0.08) := by
    unfold jsMin
    split_ifs <;> positivity
  apply le_clamp01 (by norm_num)
  split_ifs <;> linarith

theorem startSession_turnCount (personaKey : String) :
    (startSession personaKey).turnCount = 0 := rfl

theorem startSession_persona (personaKey : String) :
    (startSession personaKey).persona = lookupPersona personaKey := rfl

theorem startSession_openness (personaKey : String) :
    (startSession personaKey).opennessLevel = (lookupPersona personaKey).openness := rfl

theorem foldl_getResponse_openness (inputs : List TurnInput) (s : Session)
    (h0 : 0 ≤ s.opennessLevel) (h1 : s.opennessLevel ≤ 1) :
    0 ≤ (inputs.foldl (fun s i => getResponse s i.message i.scores i.ix) s).opennessLevel ∧
    (inputs.foldl (fun s i => getResponse s i.message i.scores i.ix) s).opennessLevel ≤ 1 := by
  induction inputs generalizing s with
  | nil => exact ⟨h0, h1⟩
  | cons i rest ih =>
    rw [List.foldl_cons]
    apply ih
    · rw [getResponse_opennessLevel]
      unfold jsMin jsMax
      split_ifs <;> linarith
    · rw [getResponse_opennessLevel]
      unfold jsMin jsMax
      split_ifs <;> linarith

/-- C4: for every session created by `startSession` and every sequence of `N`
completed `getResponse` calls on it with no intervening `endSession`, the
session satisfies `scoresHistory.length == turnCount == N` and
`conversationHistory.length == 2N+1`, with the history starting with one
patient turn carrying the persona's initial message and strictly alternating
student/patient pairs thereafter (`speakerPattern`). -/
theorem C4_session_shape (personaKey : String) (inputs : List TurnInput) :
    (runSession personaKey inputs).scoresHistory.length
        = (runSession personaKey inputs).turnCount ∧
    (runSession personaKey inputs).turnCount = inputs.length ∧
    (runSession personaKey inputs).conversationHistory.length = 2 * inputs.length + 1 ∧
    (runSession personaKey inputs).conversationHistory.map Turn.speaker
        = speakerPattern inputs.length ∧
    (runSession personaKey inputs).conversationHistory.head?
        = some ⟨Speaker.patient, (lookupPersona personaKey).initialMessage⟩ := by
  have hN : (runSession personaKey inputs).turnCount = inputs.length := by
    have h := foldl_getResponse_turnCount inputs (startSession personaKey)
    rw [startSession_turnCount, Nat.zero_add] at h
    exact h
  obtain ⟨h1, h2, h3, h4⟩ :=
    foldl_getResponse_shapeInv inputs (startSession personaKey)
      (startSession_shapeInv personaKey)
  have hp : (runSession personaKey inputs).persona = lookupPersona personaKey := by
    have := foldl_getResponse_persona inputs (startSession personaKey)
    rw [startSession_persona] at this
    exact this
  refine ⟨h1, hN, ?_, ?_, ?_⟩
  · have := h2
    rw [show (inputs.foldl (fun s i => getResponse s i.message i.scores i.ix)
        (startSession personaKey)) = runSession personaKey inputs from rfl, hN] at this
    exact this
  · have := h3
    rw [show (inputs.foldl (fun s i => getResponse s i.message i.scores i.ix)
        (startSession personaKey)) = runSession personaKey inputs from rfl, hN] at this
    exact this
  · have := h4
    rw [show (inputs.foldl (fun s i => getResponse s i.message i.scores i.ix)
        (startSession personaKey)) = runSession personaKey inputs from rfl, hp] at this
    exact this

/-- C5: for every reachable session state — any session created by
`startSession` with any persona key followed by any sequence of `getResponse`
calls with any scores objects — the session's `opennessLevel` lies in
`[0, 1]`. -/
theorem C5_openness_bounds (personaKey : String) (inputs : List TurnInput) :
    0 ≤ (runSession personaKey inputs).opennessLevel ∧
    (runSession personaKey inputs).opennessLevel ≤ 1 := by
  have h := lookupPersona_openness_bounds personaKey
  exact foldl_getResponse_openness inputs (startSession personaKey)
    (by rw [startSession_openness]; exact h.1)
    (by rw [startSession_openness]; exact h.2)

/-- C6: for every input string that is empty or consists only of whitespace,
`scoreMessage` returns empathy = accuracy = clarity = 0 with empty details. -/
theorem C6_whitespace_zero (message : String) (h : message.toList.all isWS) :
    scoreMessage message = { empathy := 0, accuracy := 0, clarity := 0, details := none } := by
  have hg : jsTrim message.data = [] := (jsTrim_eq_nil_iff message.data).mpr h
  simp [scoreMessage, List.isEmpty_iff, hg]

theorem C6_witness :
    ("   ".toList.all isWS) = true ∧
    scoreMessage "   " = { empathy := 0, accuracy := 0, clarity := 0, details := none } :=
  ⟨by decide, C6_whitespace_zero "   " (by decide)⟩

/-- C7: for every input message, each of the empathy, accuracy and clarity
values returned by `scoreMessage` lies in `[0, 1]`, no matter how many
keyword categories, bonuses or penalties apply. -/
theorem C7_scores_bounded (message : String) :
    (0 ≤ (scoreMessage message).empathy ∧ (scoreMessage message).empathy ≤ 1) ∧
    (0 ≤ (scoreMessage message).accuracy ∧ (scoreMessage message).accuracy ≤ 1) ∧
    (0 ≤ (scoreMessage message).clarity ∧ (scoreMessage message).clarity ≤ 1) := by
  unfold scoreMessage
  split_ifs
  · norm_num
  · exact ⟨⟨round2_nonneg (scoreEmpathy_mem message).1, round2_le_one (scoreEmpathy_mem message).2⟩,
      ⟨round2_nonneg (scoreAccuracy_mem message).1, round2_le_one (scoreAccuracy_mem message).2⟩,
      ⟨round2_nonneg (scoreClarity_mem message).1, round2_le_one (scoreClarity_mem message).2⟩⟩

/-- C10: for every non-empty, non-whitespace-only message, `scoreMessage`
returns empathy ≥ 0.25 and accuracy ≥ 0.2: the possible empathy penalties
(0.15 sentiment + 0.1 dismissive) and the flat 0.3 misinformation penalty
cannot pull the 0.5 base below these bounds. -/
theorem C10_nonzero_floor (message : String) (h : ¬ message.toList.all isWS = true) :
    0.25 ≤ (scoreMessage message).empathy ∧ 0.2 ≤ (scoreMessage message).accuracy := by
  have h1 : ¬ (message.toList.isEmpty = true) := by
    intro he
    rw [List.isEmpty_iff] at he
    exact h (by rw [he]; rfl)
  have h2 : ¬ ((jsTrim message.toList).isEmpty = true) := by
    intro he
    rw [List.isEmpty_iff] at he
    exact h ((jsTrim_eq_nil_iff _).mp he)
  rw [List.isEmpty_iff] at h1 h2
  have h1' : ¬ message.data = [] := h1
  have h2' : ¬ jsTrim message.data = [] := h2
  unfold scoreMessage
  rw [if_neg (by simp [List.isEmpty_iff, h1', h2'])]
  constructor
  · show (0.25 : ℚ) ≤ round2 (scoreEmpathy message)
    have h25 : ((25 : ℤ) : ℚ) / 100 ≤ scoreEmpathy message := by
      norm_num
      exact scoreEmpathy_lower message
    have := le_round2 h25
    norm_num at this ⊢
    exact this
  · show (0.2 : ℚ) ≤ round2 (scoreAccuracy message)
    have h20 : ((20 : ℤ) : ℚ) / 100 ≤ scoreAccuracy message := by
      norm_num
      exact scoreAccuracy_lower message
    have := le_round2 h20
    norm_num at this ⊢
    exact this

theorem C10_witness :
    ¬ ("Hello.".toList.all isWS = true) ∧
    0.25 ≤ (scoreMessage "Hello.").empathy ∧ 0.2 ≤ (scoreMessage "Hello.").accuracy :=
  ⟨by decide, C10_nonzero_floor "Hello." (by decide)⟩

/-- C8: for every message and scores object, the suggestions list returned by
`_getSuggestions` is exactly the first at-most-3 entries of the checklist
built in the fixed order empathy, accuracy, clarity (branching on word count
below 15), engagement; hence it never exceeds 3 entries. -/
theorem C8_suggestions (scores : ScoresObj) (message : String) :
    getSuggestions scores message = (suggestionChecklistSpec scores message).take 3 ∧
    (getSuggestions scores message).length ≤ 3 := by
  constructor
  · simp only [getSuggestions, suggestionChecklistSpec]
    split_ifs <;> rfl
  · simp only [getSuggestions]
    split_ifs <;> simp

/-- C9: for every `getResponse` call whose scores object has empathy equal
to 0, the engine reads the empathy score as 0.5 via falsy coalescing, the
openness level is left unchanged (in particular the openness-decrease branch
is never taken), and at low openness (≤ 0.4) the confrontational response
pool is never selected: the skeptical pool is. -/
theorem C9_zero_empathy (s : Session) (message : String) (sc : ScoresObj) (ix : ℕ)
    (h : sc.empathy = some 0) :
    jsOr sc.empathy 0.5 = 0.5 ∧
    (getResponse s message sc ix).opennessLevel = s.opennessLevel ∧
    (s.opennessLevel ≤ 0.4 →
      selectResponses s message sc = lowSkepticalResponses ∧
      selectResponses s message sc ≠ lowConfrontationalResponses) := by
  have hjs : jsOr sc.empathy 0.5 = 0.5 := by
    rw [h]
    simp [jsOr]
  refine ⟨hjs, ?_, ?_⟩
  · rw [getResponse_opennessLevel, hjs]
    norm_num
  · intro ho
    have hsel : selectResponses s message sc = lowSkepticalResponses := by
      simp only [selectResponses]
      rw [if_neg (by push_neg; linarith), if_neg (by push_neg; linarith), hjs,
        if_neg (by norm_num)]
    exact ⟨hsel, by rw [hsel]; decide⟩

theorem C9_witness :
    jsOr (⟨some 0, some 0, some 0⟩ : ScoresObj).empathy 0.5 = 0.5 ∧
    (getResponse (startSession "misinformation") "hello" ⟨some 0, some 0, some 0⟩ 0).opennessLevel
      = (startSession "misinformation").opennessLevel ∧
    (selectResponses (startSession "misinformation") "hello" ⟨some 0, some 0, some 0⟩
        = lowSkepticalResponses ∧
      selectResponses (startSession "misinformation") "hello" ⟨some 0, some 0, some 0⟩
        ≠ lowConfrontationalResponses) := by
  obtain ⟨h1, h2, h3⟩ :=
    C9_zero_empathy (startSession "misinformation") "hello" ⟨some 0, some 0, some 0⟩ 0 rfl
  refine ⟨h1, h2, h3 ?_⟩
  rw [show (startSession "misinformation").opennessLevel = 0.2 from rfl]
  norm_num

/-- C1 counterexample: for the all-zero ScoreSet the Scorer returns on an
empty message, `getResponse` leaves openness at 0.5 (the falsy coalescing
reads empathy 0 as 0.5), while the spec formula applied to empathy 0 would
decrease it to 0.4. -/
theorem C1_counterexample :
    (scoreMessage "").empathy = 0 ∧ (scoreMessage "").accuracy = 0 ∧
    (getResponse (startSession "default") "" (ScoreResult.toObj (scoreMessage "")) 0).opennessLevel
      = 0.5 ∧
    opennessUpdateSpec (startSession "default").opennessLevel (scoreMessage "").empathy
      (scoreMessage "").accuracy = 0.4 ∧
    ((0.5 : ℚ) ≠ 0.4) :=
  ⟨by with_unfolding_all rfl, by with_unfolding_all rfl, by with_unfolding_all rfl,
    by with_unfolding_all rfl, by norm_num⟩

/-- C1 (amended): for every session state, student message and ScoreSet whose
empathy score is nonzero — which covers every ScoreSet the Scorer produces on
non-whitespace input — `getResponse` updates the session's openness exactly
by the spec formula; for the all-zero ScoreSet of an empty message the
engine's falsy coalescing reads empathy as 0.5 and leaves openness unchanged
(see the counterexample). -/
theorem C1_openness_update (s : Session) (message : String) (r : ScoreResult) (ix : ℕ)
    (h : r.empathy ≠ 0) :
    (getResponse s message (ScoreResult.toObj r) ix).opennessLevel
      = opennessUpdateSpec s.opennessLevel r.empathy r.accuracy := by
  rw [getResponse_opennessLevel]
  have he : jsOr (ScoreResult.toObj r).empathy 0.5 = r.empathy := by
    simp [ScoreResult.toObj, jsOr, h]
  by_cases ha : r.accuracy = 0
  · have ha' : jsOr (ScoreResult.toObj r).accuracy 0.5 = 0.5 := by
      simp [ScoreResult.toObj, jsOr, ha]
    rw [he, ha']
    unfold opennessUpdateSpec
    rw [ha]
    norm_num
  · have ha' : jsOr (ScoreResult.toObj r).accuracy 0.5 = r.accuracy := by
      simp [ScoreResult.toObj, jsOr, ha]
    rw [he, ha']
    with_unfolding_all rfl

theorem C1_witness :
    ((⟨0.8, 0.7, 0.5, none⟩ : ScoreResult).empathy ≠ 0) ∧
    (getResponse (startSession "default") "Thank you"
        (ScoreResult.toObj ⟨0.8, 0.7, 0.5, none⟩) 0).opennessLevel
      = opennessUpdateSpec (startSession "default").opennessLevel 0.8 0.7 :=
  ⟨by norm_num,
    C1_openness_update (startSession "default") "Thank you" ⟨0.8, 0.7, 0.5, none⟩ 0 (by norm_num)⟩

/-- C2 counterexample: a 12-word message with clarity score 0.3 (lowest tier)
selects the unclear/too-complex message even though its word count is below
15, because the lowest tier branches at 10 words, not 15. -/
theorem C2_counterexample :
    wordCount "a a a a a a a a a a a a" = 12 ∧
    (getClarityFeedback 0.3 "a a a a a a a a a a a a").message
      = "Your response is unclear or too complex. Use simpler language and break down information into digestible parts." ∧
    "Your response is unclear or too complex. Use simpler language and break down information into digestible parts."
      ≠ "Your response is too brief. Provide more detail to address the patient's concerns." ∧
    "Your response is unclear or too complex. Use simpler language and break down information into digestible parts."
      ≠ "Your response is too short. Elaborate more to address the patient's concerns thoroughly." :=
  ⟨by decide, by with_unfolding_all rfl, by decide, by decide⟩

/-- C2 (amended): in the per-dimension clarity feedback, the middle tier
(clarity score in `[0.4, 0.6)`) branches at word count 15 between the
too-brief and simplify messages, while the lowest tier (score < 0.4)
branches at word count 10 between its too-short and unclear messages. -/
theorem C2_clarity_tiers (score : ℚ) (message : String) :
    (0.4 ≤ score → score < 0.6 →
      (getClarityFeedback score message).message
        = if wordCount message < 15 then
            "Your response is too brief. Provide more detail to address the patient's concerns."
          else
            "Simplify your language. Avoid excessive jargon and keep sentences concise.") ∧
    (score < 0.4 →
      (getClarityFeedback score message).message
        = if wordCount message < 10 then
            "Your response is too short. Elaborate more to address the patient's concerns thoroughly."
          else
            "Your response is unclear or too complex. Use simpler language and break down information into digestible parts.") := by
  constructor
  · intro h1 h2
    simp only [getClarityFeedback]
    split_ifs <;> first | rfl | linarith
  · intro h1
    simp only [getClarityFeedback]
    split_ifs <;> first | rfl | linarith

theorem C2_witness :
    ((0.4 : ℚ) ≤ 0.5 ∧ (0.5 : ℚ) < 0.6 ∧
      (getClarityFeedback 0.5 "one two three").message
        = "Your response is too brief. Provide more detail to address the patient's concerns.") ∧
    ((0.3 : ℚ) < 0.4 ∧
      (getClarityFeedback 0.3 "one two").message
        = "Your response is too short. Elaborate more to address the patient's concerns thoroughly.") := by
  constructor
  · refine ⟨by norm_num, by norm_num, ?_⟩
    rw [(C2_clarity_tiers 0.5 "one two three").1 (by norm_num) (by norm_num)]
    rfl
  · refine ⟨by norm_num, ?_⟩
    rw [(C2_clarity_tiers 0.3 "one two").2 (by norm_num)]
    rfl

/-- C3 counterexample: with the empathy field absent and openness 0.5, the
engine leaves openness at 0.5 (missing empathy coalesces to 0.5), while
treating the missing empathy as 0 in the update formula would decrease
openness to 0.4. -/
theorem C3_counterexample :
    (getResponse (startSession "default") "hi" ⟨none, some 0.7, some 0.7⟩ 0).opennessLevel
      = 0.5 ∧
    opennessUpdateSpec (startSession "default").opennessLevel 0 0.7 = 0.4 ∧
    ((0.5 : ℚ) ≠ 0.4) :=
  ⟨by with_unfolding_all rfl, by with_unfolding_all rfl, by norm_num⟩

/-- C3 (amended): `generateFeedback` rates a missing dimension as 0 via its
`|| 0` coalescing, but `getResponse` coalesces a missing empathy or accuracy
score to 0.5, not 0 — in particular a missing empathy score leaves the
openness level unchanged. -/
theorem C3_missing_fields (message : String) (sc : ScoresObj) (s : Session) (ix : ℕ) :
    (sc.empathy = none →
      (generateFeedback message sc).empathy.score = 0 ∧
      jsOr sc.empathy 0.5 = 0.5 ∧
      (getResponse s message sc ix).opennessLevel = s.opennessLevel) ∧
    (sc.accuracy = none →
      (generateFeedback message sc).accuracy.score = 0 ∧
      jsOr sc.accuracy 0.5 = 0.5) ∧
    (sc.clarity = none → (generateFeedback message sc).clarity.score = 0) := by
  refine ⟨?_, ?_, ?_⟩
  · intro h
    have hjs : jsOr sc.empathy 0.5 = 0.5 := by
      rw [h]
      rfl
    refine ⟨?_, hjs, ?_⟩
    · simp [generateFeedback, getEmpathyFeedback, jsOr, h]
    · rw [getResponse_opennessLevel, hjs]
      norm_num
  · intro h
    exact ⟨by simp [generateFeedback, getAccuracyFeedback, jsOr, h], by rw [h]; rfl⟩
  · intro h
    simp [generateFeedback, getClarityFeedback, jsOr, h]

theorem C3_witness :
    (generateFeedback "hi" ⟨none, none, none⟩).empathy.score = 0 ∧
    (generateFeedback "hi" ⟨none, none, none⟩).accuracy.score = 0 ∧
    (generateFeedback "hi" ⟨none, none, none⟩).clarity.score = 0 ∧
    (getResponse (startSession "default") "hi" ⟨none, none, none⟩ 0).opennessLevel
      = (startSession "default").opennessLevel := by
  obtain ⟨he, ha, hc⟩ := C3_missing_fields "hi" ⟨none, none, none⟩ (startSession "default") 0
  obtain ⟨h1, h2, h3⟩ := he rfl
  exact ⟨h1, (ha rfl).1, hc rfl, h3⟩

end PharmComm
